import Mathlib

/-
Verification of the benet wrapper (a Rust safety layer over the ENet native
transport engine) against its natural-language specification.

The embedding below is a shallow model of the wrapper's own code
(src/src/init.rs, packet.rs, compress.rs, peer.rs, host.rs).  The native
engine is opaque: calls into it are recorded as `NativeCall` trace events, and
native results (success/failure of enet_initialize, enet_host_create, ...)
are explicit boolean/option parameters.  Machine integers are modelled as Nat:
none of the modelled code paths can overflow u32/usize on the inputs
considered, and bitwise flag arithmetic is carried out on Nat.
-/

namespace Benet

/-- The wrapper's error type (src/src/error.rs).  `ioFail` stands for
`Error::Io(e)`; the wrapped `std::io::Error` payload is irrelevant to the
claims and dropped. -/
inductive Error where
  | init
  | invalidArgument
  | ioFail
  | unknown
  deriving DecidableEq

/-- Calls into the opaque native engine, as emitted by the wrapper code.
`enet_init`/`enet_deinit` stand for the native global initializer and
deinitializer; `enet_host_compress cust` records installing a custom
compressor table (`cust = true`) or clearing it with a null pointer
(`cust = false`). -/
inductive NativeCall where
  | enet_init
  | enet_deinit
  | enet_host_create (addr : Option (Nat × Nat))
      (peer_count channel_limit incoming outgoing : Nat)
  | enet_host_compress (cust : Bool)
  | enet_host_compress_with_range_coder
  | enet_packet_destroy (pkt : Nat)
  | enet_peer_send (peer channel pkt : Nat)
  | enet_host_broadcast (channel pkt : Nat)
  | enet_peer_timeout (limit tmin tmax : Nat)
  deriving DecidableEq

/-! ## Global initialization guard (src/src/init.rs)

`REF_COUNT` is the mutex-protected global counter; `engineInit` is the state
of the native subsystem (true between a successful enet_initialize and the
matching enet_deinitialize).  The model is sequential, matching the
mutex-serialized execution of the source. -/

structure InitState where
  refCount : Nat
  engineInit : Bool
  deriving DecidableEq

/-- `InitGuard::new` (src/src/init.rs lines 10-28).  `initOk` is the result of
the native `enet_initialize` call (`true` iff its return value is ≥ 0).
Returns the new global state, the native calls made, and whether `new`
returned `Ok`. -/
def InitGuard.new (s : InitState) (initOk : Bool) : InitState × List NativeCall × Bool :=
  if s.refCount ≠ 0 then
    ({ s with refCount := s.refCount + 1 }, [], true)
  else if initOk then
    ({ refCount := 1, engineInit := true }, [NativeCall.enet_init], true)
  else
    (s, [NativeCall.enet_init], false)

/-- `impl Clone for InitGuard` (src/src/init.rs lines 31-37): increments the
count, makes no native call. -/
def InitGuard.clone (s : InitState) : InitState :=
  { s with refCount := s.refCount + 1 }

/-- `impl Drop for InitGuard` (src/src/init.rs lines 39-50): decrements the
count and calls `enet_deinitialize` when it reaches zero. -/
def InitGuard.drop (s : InitState) : InitState × List NativeCall :=
  let s1 : InitState := { s with refCount := s.refCount - 1 }
  if s1.refCount = 0 then ({ s1 with engineInit := false }, [NativeCall.enet_deinit])
  else (s1, [])

/-- One operation on the guard subsystem: construct a guard, clone an existing
live guard, or drop a live guard. -/
inductive InitOp where
  | new (initOk : Bool)
  | clone
  | drop
  deriving DecidableEq

/-- The global state plus the number of currently live guard values (each
successful `new` or `clone` creates one, each `drop` destroys one). -/
structure InitWorld where
  st : InitState
  live : Nat
  deriving DecidableEq

def initStep (w : InitWorld) : InitOp → InitWorld × List NativeCall
  | InitOp.new initOk =>
      match InitGuard.new w.st initOk with
      | (s, calls, ok) => ({ st := s, live := w.live + (if ok then 1 else 0) }, calls)
  | InitOp.clone => ({ st := InitGuard.clone w.st, live := w.live + 1 }, [])
  | InitOp.drop =>
      match InitGuard.drop w.st with
      | (s, calls) => ({ st := s, live := w.live - 1 }, calls)

/-- An operation is well-formed when it only clones or drops a guard that is
actually alive (`clone` and `drop` take an existing `InitGuard` receiver in
the source). -/
def initOpOk (w : InitWorld) : InitOp → Bool
  | InitOp.new _ => true
  | InitOp.clone => w.live != 0
  | InitOp.drop => w.live != 0

def initRun (w : InitWorld) : List InitOp → InitWorld
  | [] => w
  | op :: ops => initRun (initStep w op).1 ops

def initSeqOk (w : InitWorld) : List InitOp → Bool
  | [] => true
  | op :: ops => initOpOk w op && initSeqOk (initStep w op).1 ops

/-- Process start: count zero, native subsystem uninitialized, no guards. -/
def initWorld0 : InitWorld := { st := { refCount := 0, engineInit := false }, live := 0 }

/-- The conserved invariant: the global counter equals the number of live
guards, and the native subsystem is initialized exactly when it is positive. -/
def InitInv (w : InitWorld) : Prop :=
  w.st.refCount = w.live ∧ (w.st.engineInit = true ↔ 0 < w.st.refCount)

/-! ## Packet delivery flags (src/src/packet.rs lines 99-154)

The native flag bit constants from enet_sys. -/

def ENET_PACKET_FLAG_RELIABLE : Nat := 1
def ENET_PACKET_FLAG_UNSEQUENCED : Nat := 2
def ENET_PACKET_FLAG_NO_ALLOCATE : Nat := 4
def ENET_PACKET_FLAG_UNRELIABLE_FRAGMENT : Nat := 8

structure Flags where
  flags : Nat
  deriving DecidableEq

/-- `Flags::check_flag` (src/src/packet.rs lines 151-153). -/
def Flags.check_flag (f : Flags) (flag : Nat) : Bool :=
  f.flags &&& flag == flag

/-- `#[derive(Default)]` on `Flags`: the u32 default, zero. -/
def Flags.default : Flags := ⟨0⟩

/-- The message of the panic raised by `Flags::reliable`/`Flags::unsequenced`
on the forbidden combination. -/
def reliableUnsequencedMsg : String :=
  "reliable and unsequenced flags are not supported at the same time"

/-- `Flags::reliable` (src/src/packet.rs lines 109-117); a Rust panic is
modelled as `Except.error` carrying the panic message. -/
def Flags.reliable (f : Flags) : Except String Flags :=
  if f.check_flag ENET_PACKET_FLAG_UNSEQUENCED then Except.error reliableUnsequencedMsg
  else Except.ok ⟨f.flags ||| ENET_PACKET_FLAG_RELIABLE⟩

def Flags.is_reliable (f : Flags) : Bool :=
  f.check_flag ENET_PACKET_FLAG_RELIABLE

/-- `Flags::unsequenced` (src/src/packet.rs lines 126-134). -/
def Flags.unsequenced (f : Flags) : Except String Flags :=
  if f.check_flag ENET_PACKET_FLAG_RELIABLE then Except.error reliableUnsequencedMsg
  else Except.ok ⟨f.flags ||| ENET_PACKET_FLAG_UNSEQUENCED⟩

def Flags.is_unsequenced (f : Flags) : Bool :=
  f.check_flag ENET_PACKET_FLAG_UNSEQUENCED

/-- `Flags::unreliable_fragment` (src/src/packet.rs lines 141-145). -/
def Flags.unreliable_fragment (f : Flags) : Except String Flags :=
  Except.ok ⟨f.flags ||| ENET_PACKET_FLAG_UNRELIABLE_FRAGMENT⟩

/-- The `Flags` values a caller can actually build: start from the derived
default and apply the three builder methods on their success paths. -/
inductive ReachableFlags : Flags → Prop where
  | base : ReachableFlags Flags.default
  | rel {f g : Flags} : ReachableFlags f → f.reliable = Except.ok g → ReachableFlags g
  | unseq {f g : Flags} : ReachableFlags f → f.unsequenced = Except.ok g → ReachableFlags g
  | frag {f g : Flags} : ReachableFlags f → f.unreliable_fragment = Except.ok g →
      ReachableFlags g

/-! ## Compression output buffer (src/src/compress.rs lines 62-116)

`buffer` holds the contents of the caller-owned native region the `buffer`
pointer designates (one Nat per byte), `length` and `written` are the
like-named fields. -/

structure OutputBuffer where
  buffer : List Nat
  length : Nat
  written : Nat
  deriving DecidableEq

/-- `OutputBuffer::len` (src/src/compress.rs lines 81-83). -/
def OutputBuffer.len (ob : OutputBuffer) : Nat := ob.length

/-- `OutputBuffer::is_empty` (src/src/compress.rs lines 85-87): the source
returns `self.length != 0`. -/
def OutputBuffer.is_empty (ob : OutputBuffer) : Bool := ob.length != 0

/-- The error kind of the `std::io::Error` produced by `OutputBuffer::write`. -/
inductive IOErrorKind where
  | writeZero
  deriving DecidableEq

/-- Raw byte stores of `data` into `buf` at successive offsets `i`, `i+1`, ...
(each loop iteration's `self.buffer.add(i).write(b)`). -/
def storeBytes : List Nat → Nat → List Nat → List Nat
  | buf, _, [] => buf
  | buf, i, b :: rest => storeBytes (buf.set i b) (i + 1) rest

/-- `<OutputBuffer as Write>::write` (src/src/compress.rs lines 98-110).
The bounds check compares `self.written + data.len()` against `self.length`;
the store loop writes byte `i` of `data` at offset `i` of the buffer (the
source reads `self.buffer.add(i)`), and neither branch updates the `written`
field.  On success the call returns `data.len()`. -/
def OutputBuffer.write (ob : OutputBuffer) (data : List Nat) :
    Except IOErrorKind (OutputBuffer × Nat) :=
  if ob.length < ob.written + data.length then Except.error IOErrorKind.writeZero
  else Except.ok ({ ob with buffer := storeBytes ob.buffer 0 data }, data.length)

/-! ## Compressor bridge and host entry points (src/src/host.rs)

The compressor context's `panic` slot buffers a payload caught by
`catch_unwind`; payloads (`Box<dyn Any + Send>`) are abstracted as Nat. -/

structure CompressorCtx where
  panicBuf : Option Nat
  deriving DecidableEq

/-- Outcome of running the user (de)compressor closure under `catch_unwind`:
`ok` for `Ok(Ok(()))`, `err` for `Ok(Err(compress::Error))`, `panicked p` for
`Err(p)` (the closure panicked with payload `p`). -/
inductive CbOutcome where
  | ok
  | err
  | panicked (p : Nat)
  deriving DecidableEq

/-- The shared result handling of the `compress` and `decompress` extern "C"
bridges (src/src/host.rs lines 416-423 and 455-462): `Ok(Ok(_))` returns
`output_buffer.written()` to the native caller, `Ok(Err(_))` returns 0, and a
caught panic is stored into `ctx.panic` (overwriting any previous payload)
with 0 returned. -/
def bridgeResult (ctx : CompressorCtx) (outcome : CbOutcome) (ob : OutputBuffer) :
    CompressorCtx × Nat :=
  match outcome with
  | CbOutcome.ok => (ctx, ob.written)
  | CbOutcome.err => (ctx, 0)
  | CbOutcome.panicked p => ({ panicBuf := some p }, 0)

/-- Result of a host-level entry point as seen by the caller: a normal return,
`Err(Error::Unknown)`, or an unwind resumed by `panic::resume_unwind`. -/
inductive HostOutcome (α : Type) where
  | ok (a : α)
  | err
  | panicked (p : Nat)
  deriving DecidableEq

/-- `Host::panic_check` (src/src/host.rs lines 148-152): `take()`s the buffered
payload; the caller resumes unwinding when it is `some`. -/
def Host.panic_check (ctx : CompressorCtx) : CompressorCtx × Option Nat :=
  ({ panicBuf := none }, ctx.panicBuf)

/-- `Host::check_events` (src/src/host.rs lines 48-62).  `ret` is the native
`enet_host_check_events` return value and `ev` the translation of the
dispatched event (events are abstracted as Nat).  `panic_check` runs only on
the `ret < 0` path. -/
def Host.check_events (ctx : CompressorCtx) (ret : Int) (ev : Option Nat) :
    CompressorCtx × HostOutcome (Option Nat) :=
  if ret < 0 then
    match Host.panic_check ctx with
    | (ctx1, some p) => (ctx1, HostOutcome.panicked p)
    | (ctx1, none) => (ctx1, HostOutcome.err)
  else if ret = 0 then (ctx, HostOutcome.ok none)
  else (ctx, HostOutcome.ok ev)

/-- `Host::service` (src/src/host.rs lines 109-126): same shape, but any
`ret ≥ 0` returns the translated event directly. -/
def Host.service (ctx : CompressorCtx) (ret : Int) (ev : Option Nat) :
    CompressorCtx × HostOutcome (Option Nat) :=
  if ret < 0 then
    match Host.panic_check ctx with
    | (ctx1, some p) => (ctx1, HostOutcome.panicked p)
    | (ctx1, none) => (ctx1, HostOutcome.err)
  else (ctx, HostOutcome.ok ev)

/-! ## Packet ownership (src/src/packet.rs, src/src/peer.rs, src/src/host.rs)

The wrapper `Packet` holds the raw native packet pointer (as an address) and
the channel id.  The `InitGuard` member only touches the global init count and
emits no packet-related native call, so it is omitted from this trace model. -/

structure Packet where
  packet : Nat
  channel_id : Nat
  deriving DecidableEq

/-- `impl Drop for Packet` (src/src/packet.rs lines 81-87): the destructor
calls `enet_packet_destroy` on the stored pointer. -/
def Packet.dropCalls (p : Packet) : List NativeCall :=
  [NativeCall.enet_packet_destroy p.packet]

/-- `Packet::into_raw` (src/src/packet.rs lines 24-26): the body is
`self.packet`.  Reading the `Copy` raw-pointer field does not move `self`
out, and the function neither calls `mem::forget(self)` nor wraps `self` in
`ManuallyDrop`, so — `Packet` implementing `Drop` — the destructor runs on
`self` when it goes out of scope at the end of `into_raw`.  The function
therefore returns the pointer and emits the destructor's native call. -/
def Packet.into_raw (p : Packet) : Nat × List NativeCall :=
  (p.packet, Packet.dropCalls p)

/-- `PeerMut::send` (src/src/peer.rs lines 176-185):
`enet_peer_send(self.peer, packet.channel_id(), packet.into_raw())`.
Arguments evaluate left to right, so `into_raw` (including the destructor run
inside it) completes before `enet_peer_send` is invoked.  `retOk` is whether
the native send returns ≥ 0. -/
def PeerMut.send (peer : Nat) (p : Packet) (retOk : Bool) :
    List NativeCall × Except Error Unit :=
  match Packet.into_raw p with
  | (ptr, calls) =>
      (calls ++ [NativeCall.enet_peer_send peer p.channel_id ptr],
       if retOk then Except.ok () else Except.error Error.unknown)

/-- `Host::broadcast` (src/src/host.rs lines 41-45):
`enet_host_broadcast(self.host, packet.channel_id(), packet.into_raw())`. -/
def Host.broadcast (p : Packet) : List NativeCall :=
  match Packet.into_raw p with
  | (ptr, calls) => calls ++ [NativeCall.enet_host_broadcast p.channel_id ptr]

/-- A native call that releases (or transfers final ownership of) the native
packet allocation at address `pkt`: the wrapper destructor's
`enet_packet_destroy`, or handing the packet to the engine through
`enet_peer_send`/`enet_host_broadcast` (after which the engine frees it). -/
def releasesPacket (pkt : Nat) : NativeCall → Bool
  | NativeCall.enet_packet_destroy q => q == pkt
  | NativeCall.enet_peer_send _ _ q => q == pkt
  | NativeCall.enet_host_broadcast _ q => q == pkt
  | _ => false

def releaseCount (trace : List NativeCall) (pkt : Nat) : Nat :=
  (trace.filter (releasesPacket pkt)).length

/-! ## Packet construction and the no-copy buffer hand-off (src/src/packet.rs)

`Packet::new` passes the data to `enet_packet_create` with
`ENET_PACKET_FLAG_NO_ALLOCATE`, so the native side stores the given pointer
as the packet's `data` field without copying.  To settle what that pointer
designates we model addresses explicitly: a `Vec<u8>` argument consists of
its byte contents, its capacity, the address `bufAddr` of its heap buffer
(what `data.as_ptr()` would yield), and the address `headerAddr` of the stack
slot of `Packet::new`'s frame holding the Vec header itself (what `&data`
yields).  The two are distinct allocations. -/

structure VecU8 where
  contents : List Nat
  capacity : Nat
  bufAddr : Nat
  headerAddr : Nat
  deriving DecidableEq

/-- The native packet record as set up by `Packet::new`
(src/src/packet.rs lines 31-56): `dataPtr`/`dataLength` are what
`enet_packet_create` stored (NO_ALLOCATE: the pointer and length passed in),
`userData` is set to `data.capacity()`, and the free callback is registered.

The first argument of the `enet_packet_create` call on line 35 is
`&data as *const _ as *const _` with `data : Vec<u8>`: a `&Vec<u8>` cast to
`*const Vec<u8>` and then to the C pointer type.  The address passed is thus
`v.headerAddr`, the address of the Vec header itself — not `v.bufAddr`, which
`data.as_ptr()` would have produced. -/
structure ENetPacket where
  dataPtr : Nat
  dataLength : Nat
  flagBits : Nat
  userData : Nat
  hasFreeCallback : Bool
  deriving DecidableEq

/-- `Packet::new` (src/src/packet.rs lines 31-56) on the path where the
native allocator succeeds (`createOk = true`); a null return yields
`Err(Error::Unknown)`. -/
def Packet.new (v : VecU8) (f : Flags) (createOk : Bool) : Except Error ENetPacket :=
  if createOk then
    Except.ok
      { dataPtr := v.headerAddr
        dataLength := v.contents.length
        flagBits := f.flags ||| ENET_PACKET_FLAG_NO_ALLOCATE
        userData := v.capacity
        hasFreeCallback := true }
  else Except.error Error.unknown

/-- A live memory region: `base` is its first address and `bytes` its
contents, one address per byte. -/
structure MemRegion where
  base : Nat
  bytes : List Nat
  deriving DecidableEq

/-- A raw read of `len` bytes at address `addr`: defined (`some`) only when
the whole range lies inside a single live region. -/
def readBytes (regions : List MemRegion) (addr len : Nat) : Option (List Nat) :=
  match regions.find? (fun r => decide (r.base ≤ addr) && decide (addr + len ≤ r.base + r.bytes.length)) with
  | some r => some ((r.bytes.drop (addr - r.base)).take len)
  | none => none

/-- The live regions after `Packet::new` returns to its caller: the forgotten
Vec's heap buffer (kept alive by `mem::forget(data)`) still holds the byte
contents at `bufAddr`; the stack slot at `headerAddr` died when `new`'s frame
was popped, so no region covers it. -/
def liveHeapAfterNew (v : VecU8) : List MemRegion :=
  [{ base := v.bufAddr, bytes := v.contents }]

/-- `Packet::data` (src/src/packet.rs lines 66-73): returns the empty slice
when `dataLength` is 0, otherwise reads `dataLength` bytes at the packet's
`data` pointer. -/
def Packet.dataRead (pkt : ENetPacket) (regions : List MemRegion) : Option (List Nat) :=
  if pkt.dataLength = 0 then some []
  else readBytes regions pkt.dataPtr pkt.dataLength

/-- `free_callback` (src/src/packet.rs lines 166-172):
`Vec::<u8>::from_raw_parts(packet.data, packet.dataLength, packet.userData)`.
The triple returned here is the (pointer, length, capacity) descriptor whose
buffer the reconstructed Vec deallocates when dropped. -/
def free_callback (pkt : ENetPacket) : Nat × Nat × Nat :=
  (pkt.dataPtr, pkt.dataLength, pkt.userData)

/-! ## Peers (src/src/peer.rs, src/src/host.rs)

A native peer slot, reduced to its `data` field: `none` models a null
pointer, `some v` a heap `Box<T>` holding the value `v`.  `T::default()` is
modelled as `0`. -/

structure NativePeer where
  data : Option Nat
  deriving DecidableEq

/-- The wrapper-side state of a `PeerMut` view. -/
structure PeerMutView where
  disconnecting : Bool
  deriving DecidableEq

/-- `PeerMut::from_raw` as invoked throughout src/src/host.rs
(`PeerMut::from_raw(peer, dc)`): wraps the pointer and records the
`disconnecting` flag, leaving the peer's `data` field untouched.  (The
definition at src/src/peer.rs lines 89-96 takes the pointer alone and always
stores `disconnecting: false`; either way no data is installed.) -/
def PeerMut.from_raw (p : NativePeer) (dc : Bool) : NativePeer × PeerMutView :=
  (p, { disconnecting := dc })

/-- `PeerMut::connecting` (src/src/peer.rs lines 98-108): installs
`Box::leak(Box::new(T::default()))` into the peer's `data` field. -/
def PeerMut.connecting (p : NativePeer) : NativePeer × PeerMutView :=
  ({ p with data := some 0 }, { disconnecting := false })

/-- A socket address produced by `to_socket_addrs` resolution. -/
inductive SockAddr where
  | v4 (host : Nat) (port : Nat)
  | v6
  deriving DecidableEq

/-- `Host::connect` (src/src/host.rs lines 67-98).  `native h p` is the
result of `enet_host_connect` for the address `(h, p)`: `none` for a null
return, `some peer` for the connecting peer slot the engine handed back.  The
loop skips IPv6 addresses and commits to the first IPv4 one; on its success
path the code returns `PeerMut::from_raw(peer, false)`. -/
def Host.connect (addrs : List SockAddr) (channel_count : Nat)
    (native : Nat → Nat → Option NativePeer) :
    Except Error (NativePeer × PeerMutView) :=
  if channel_count = 0 then Except.error Error.invalidArgument
  else
    match addrs.find? (fun a => match a with | SockAddr.v4 _ _ => true | SockAddr.v6 => false) with
    | some (SockAddr.v4 h p) =>
        match native h p with
        | none => Except.error Error.unknown
        | some peer => Except.ok (PeerMut.from_raw peer false)
    | _ => Except.error Error.invalidArgument

/-- The native event record handed out by `enet_host_service` /
`enet_host_check_events`, reduced to the fields `translate_event` reads. -/
inductive NativeEventType where
  | evNone
  | evConnect
  | evDisconnect
  | evReceive
  deriving DecidableEq

structure NativeEvent where
  type_ : NativeEventType
  peer : NativePeer
  data : Nat
  packetPtr : Nat
  channelID : Nat
  deriving DecidableEq

inductive EventKindView where
  | connect (data : Nat)
  | disconnect (data : Nat)
  | receive (packetPtr : Nat) (channelID : Nat)
  deriving DecidableEq

structure EventView where
  peer : NativePeer × PeerMutView
  kind : EventKindView
  deriving DecidableEq

/-- `Host::translate_event` (src/src/host.rs lines 189-212): a NONE event
yields `None`; connect/disconnect/receive events wrap the peer with
`PeerMut::from_raw(event.peer, dc)` where `dc` is true only for disconnect.
No arm calls `PeerMut::connecting`. -/
def Host.translate_event (ev : NativeEvent) : Option EventView :=
  match ev.type_ with
  | NativeEventType.evNone => none
  | NativeEventType.evConnect =>
      some { kind := EventKindView.connect ev.data, peer := PeerMut.from_raw ev.peer false }
  | NativeEventType.evDisconnect =>
      some { kind := EventKindView.disconnect ev.data, peer := PeerMut.from_raw ev.peer true }
  | NativeEventType.evReceive =>
      some { kind := EventKindView.receive ev.packetPtr ev.channelID,
             peer := PeerMut.from_raw ev.peer false }

/-- The `millis` closure of `PeerMut::set_timeout` (src/src/peer.rs lines
224-230): `duration.map(|d| d.as_millis().min(1)).unwrap_or(0)`.  Durations
are taken as whole milliseconds. -/
def timeoutMillis (d : Option Nat) : Nat :=
  match d with
  | some ms => min ms 1
  | none => 0

/-- `PeerMut::set_timeout` (src/src/peer.rs lines 218-239): the three values
forwarded to `enet_peer_timeout`. -/
def PeerMut.set_timeout (limit tmin tmax : Option Nat) : List NativeCall :=
  [NativeCall.enet_peer_timeout (timeoutMillis limit) (timeoutMillis tmin) (timeoutMillis tmax)]

/-! ## Host builder (src/src/host.rs lines 235-375) -/

/-- `CompressorKind` (src/src/host.rs lines 383-388); the boxed user
compressor payload is irrelevant to the builder claims. -/
inductive CompressorKind where
  | custom
  | rangeCoder
  deriving DecidableEq

/-- `Host::set_compressor` (src/src/host.rs lines 154-187).  `rcOk` is the
result of `enet_host_compress_with_range_coder` (`true` iff ≥ 0). -/
def Host.set_compressor (kind : Option CompressorKind) (rcOk : Bool) :
    Except Error Unit × List NativeCall :=
  match kind with
  | some CompressorKind.custom =>
      (Except.ok (), [NativeCall.enet_host_compress true])
  | some CompressorKind.rangeCoder =>
      if rcOk then (Except.ok (), [NativeCall.enet_host_compress_with_range_coder])
      else (Except.error Error.unknown, [NativeCall.enet_host_compress_with_range_coder])
  | none => (Except.ok (), [NativeCall.enet_host_compress false])

deriving instance DecidableEq for Except

/-- `HostBuilder` (src/src/host.rs lines 235-244).  The `addr` field stores
the outcome of address resolution performed by the `addr` setter:
`Option<Result<SocketAddrV4, io::Error>>`, an IPv4 address modelled as a
(host, port) pair and the io::Error payload dropped. -/
structure HostBuilder where
  addr : Option (Except Unit (Nat × Nat))
  peer_count : Option Nat
  channel_limit : Option Nat
  incoming_bandwidth : Option Nat
  outgoing_bandwidth : Option Nat
  compressor_kind : Option CompressorKind
  deriving DecidableEq

/-- The four identical validation matches in `HostBuilder::build`
(src/src/host.rs lines 320-342): `Some(0)` fails with `InvalidArgument`,
`Some(x)` passes `x` through, `None` defaults to 1. -/
def checkedParam : Option Nat → Except Error Nat
  | some 0 => Except.error Error.invalidArgument
  | some n => Except.ok n
  | none => Except.ok 1

/-- The body of `HostBuilder::build` after address resolution
(src/src/host.rs lines 320-374): the four validations, then
`InitGuard::new`, then `enet_host_create`, then `set_compressor`.  `s` is
the global init state entering the `InitGuard::new` call; `initOk` and
`createOk` are the native results of `enet_initialize` and
`enet_host_create`, `rcOk` of `enet_host_compress_with_range_coder`.  The
returned list is the sequence of native calls performed. -/
def buildWithAddr (addr : Option (Nat × Nat)) (b : HostBuilder) (s : InitState)
    (initOk createOk rcOk : Bool) : Except Error Unit × List NativeCall :=
  match checkedParam b.peer_count with
    | Except.error e => (Except.error e, [])
    | Except.ok peer_count =>
    match checkedParam b.channel_limit with
    | Except.error e => (Except.error e, [])
    | Except.ok channel_limit =>
    match checkedParam b.incoming_bandwidth with
    | Except.error e => (Except.error e, [])
    | Except.ok incoming =>
    match checkedParam b.outgoing_bandwidth with
    | Except.error e => (Except.error e, [])
    | Except.ok outgoing =>
    match InitGuard.new s initOk with
    | (_, guardCalls, ok) =>
      if ok then
        let createCall :=
          NativeCall.enet_host_create addr peer_count channel_limit incoming outgoing
        if createOk then
          match Host.set_compressor b.compressor_kind rcOk with
          | (Except.ok _, compCalls) =>
              (Except.ok (), guardCalls ++ [createCall] ++ compCalls)
          | (Except.error e, compCalls) =>
              (Except.error e, guardCalls ++ [createCall] ++ compCalls)
        else (Except.error Error.unknown, guardCalls ++ [createCall])
      else (Except.error Error.init, guardCalls)

/-- `HostBuilder::build`, entry: lines 309-318 first turn the stored
`Option<Result<SocketAddrV4, io::Error>>` into an `Option<ENetAddress>`,
returning the io error if resolution had failed; the rest of the build is
`buildWithAddr`. -/
def HostBuilder.build (b : HostBuilder) (s : InitState) (initOk createOk rcOk : Bool) :
    Except Error Unit × List NativeCall :=
  match b.addr with
  | some (Except.error _) => (Except.error Error.ioFail, [])
  | some (Except.ok a) => buildWithAddr (some a) b s initOk createOk rcOk
  | none => buildWithAddr none b s initOk createOk rcOk

/-! ## Theorems -/

/-- Claim C1.  The claim requires that exactly one party release the native
packet allocation, and in particular that consuming a Packet via `into_raw`
for `Peer::send` or `Host::broadcast` must not also run the wrapper's
destructor.  The code violates this: `into_raw` takes `self` by value,
returns the copied pointer, and — lacking a `mem::forget` — lets the `Drop`
impl run on `self`, so a send emits `enet_packet_destroy` on the packet and
then also hands the (now dangling) pointer to `enet_peer_send`, giving two
releasing parties.  A packet that is merely dropped is released once, showing
the double release is specific to the send path. -/
theorem c1_send_releases_packet_twice :
    (PeerMut.send 11 { packet := 42, channel_id := 3 } true).1 =
      [NativeCall.enet_packet_destroy 42, NativeCall.enet_peer_send 11 3 42]
  ∧ releaseCount (PeerMut.send 11 { packet := 42, channel_id := 3 } true).1 42 = 2
  ∧ releaseCount (Host.broadcast { packet := 42, channel_id := 3 }) 42 = 2
  ∧ releaseCount (Packet.dropCalls { packet := 42, channel_id := 3 }) 42 = 1 := by
  decide

/-- The concrete `Packet::new` input for claim C2: a three-byte vector
`[7, 7, 7]` of capacity 4 whose heap buffer lives at address 100 while the
Vec header occupies the stack slot at address 500. -/
def vecC2 : VecU8 :=
  { contents := [7, 7, 7], capacity := 4, bufAddr := 100, headerAddr := 500 }

/-- The native packet record `Packet::new vecC2` produces on its success
path. -/
def pktC2 : ENetPacket :=
  { dataPtr := 500, dataLength := 3, flagBits := 4, userData := 4, hasFreeCallback := true }

/-- Claim C2.  The claim requires `data()` to return bytes identical to the
input vector.  The code violates it: `Packet::new` passes
`&data as *const _ as *const _` — the address of the Vec header (500) — to
`enet_packet_create` instead of the heap buffer pointer (100), so after `new`
returns, `data()` dereferences a dead stack slot and cannot see the contents;
had the buffer address been stored, the same read would return the input
bytes (last conjunct).  The capacity recorded for the reclamation callback
does equal the vector's capacity, but `free_callback` reconstructs the Vec
descriptor from the header address, not the original buffer. -/
theorem c2_new_passes_header_address :
    Packet.new vecC2 Flags.default true = Except.ok pktC2
  ∧ pktC2.dataPtr = vecC2.headerAddr
  ∧ vecC2.headerAddr ≠ vecC2.bufAddr
  ∧ Packet.dataRead pktC2 (liveHeapAfterNew vecC2) = none
  ∧ Packet.dataRead pktC2 (liveHeapAfterNew vecC2) ≠ some vecC2.contents
  ∧ pktC2.userData = vecC2.capacity
  ∧ free_callback pktC2 = (500, 3, 4)
  ∧ Packet.dataRead { pktC2 with dataPtr := vecC2.bufAddr } (liveHeapAfterNew vecC2)
      = some vecC2.contents := by
  decide

/-- Claim C3.  The claim requires each successful write to append after the
previous writes, the cursor to advance, and the total written to be reported
to the native caller.  The code violates all three: the store loop writes at
offsets `0..data.len()` (`self.buffer.add(i)`, not `add(self.written + i)`)
and never updates `self.written`.  Two one-byte writes into a fresh 2-byte
buffer leave the second byte at offset 0 (overwriting the first), the cursor
at 0, and the compress bridge reports 0 — not 2 — as the callback's return
value. -/
theorem c3_write_cursor_never_advances :
    OutputBuffer.write { buffer := [0, 0], length := 2, written := 0 } [5]
      = Except.ok ({ buffer := [5, 0], length := 2, written := 0 }, 1)
  ∧ OutputBuffer.write { buffer := [5, 0], length := 2, written := 0 } [6]
      = Except.ok ({ buffer := [6, 0], length := 2, written := 0 }, 1)
  ∧ ({ buffer := [6, 0], length := 2, written := 0 } : OutputBuffer).written = 0
  ∧ bridgeResult { panicBuf := none } CbOutcome.ok
      { buffer := [6, 0], length := 2, written := 0 } = ({ panicBuf := none }, 0) := by
  decide

/-- Claim C5.  The claim requires the peer's user data to be installed,
default-initialized, whenever a peer is produced by `Host::connect` or by the
translation of a native connect event.  The code violates it: both paths wrap
the native peer with `PeerMut::from_raw(peer, false)`, which leaves the
`data` pointer null; `PeerMut::connecting` — the only function that installs
`Box::new(T::default())` (last conjunct) — is never invoked anywhere in the
crate. -/
theorem c5_connect_leaves_data_null :
    Host.connect [SockAddr.v4 2130706433 4000] 1 (fun _ _ => some { data := none })
      = Except.ok ({ data := none }, { disconnecting := false })
  ∧ Host.translate_event
      { type_ := NativeEventType.evConnect, peer := { data := none },
        data := 5, packetPtr := 0, channelID := 0 }
      = some { kind := EventKindView.connect 5,
               peer := ({ data := none }, { disconnecting := false }) }
  ∧ (PeerMut.connecting { data := none }).1.data = some 0 := by
  decide

/-- Claim C9.  The claim requires a provided duration to be forwarded as its
value in milliseconds, not a clamped variant.  The code violates it: the
`millis` closure computes `duration.as_millis().min(1)`, so a 5 ms limit is
forwarded to `enet_peer_timeout` as 1, not 5 (absent fields are forwarded as
0 as claimed). -/
theorem c9_set_timeout_clamps_to_one :
    PeerMut.set_timeout (some 5) none none = [NativeCall.enet_peer_timeout 1 0 0]
  ∧ PeerMut.set_timeout (some 5) none none ≠ [NativeCall.enet_peer_timeout 5 0 0] := by
  decide

/-- Claim C10.  The claim requires `is_empty()` to return true exactly when
`len()` is 0.  The code returns `self.length != 0`, the exact opposite: on a
zero-length buffer `is_empty` is `false`, and on a one-byte buffer it is
`true`. -/
theorem c10_is_empty_inverted :
    OutputBuffer.is_empty { buffer := [], length := 0, written := 0 } = false
  ∧ OutputBuffer.len { buffer := [], length := 0, written := 0 } = 0
  ∧ OutputBuffer.is_empty { buffer := [0], length := 1, written := 0 } = true
  ∧ OutputBuffer.len { buffer := [0], length := 1, written := 0 } = 1 := by
  decide

/-- Claim C4, counterexample to the claim as stated: with a panic buffered
(payload 7) and the native `enet_host_check_events` returning 0 (no queued
event), `check_events` returns `Ok(None)` without re-raising and leaves the
buffer full — so not every return path checks for and re-raises a buffered
panic. -/
theorem c4_counterexample_success_path_skips_check :
    (Host.check_events { panicBuf := some 7 } 0 none).2 = HostOutcome.ok none
  ∧ (Host.check_events { panicBuf := some 7 } 0 none).2 ≠ HostOutcome.panicked 7
  ∧ (Host.check_events { panicBuf := some 7 } 0 none).1.panicBuf = some 7 := by
  decide

/-- Claim C4 as amended: when a user compressor callback panics, the bridge
catches the panic at the callback boundary, buffers it in the shared
compressor context, and returns 0 to the native layer; `service` and
`check_events` re-raise a buffered panic exactly once on the return path
where the native call reports an error (returns < 0), emptying the buffer so
a subsequent call proceeds normally; on the non-error return paths the
buffer is not checked and is left unchanged. -/
theorem c4_panic_reraised_on_error_path :
    (∀ (ctx : CompressorCtx) (ob : OutputBuffer) (p : Nat),
        bridgeResult ctx (CbOutcome.panicked p) ob = ({ panicBuf := some p }, 0))
  ∧ (∀ (ret : Int) (ev : Option Nat) (p : Nat), ret < 0 →
        Host.check_events { panicBuf := some p } ret ev
          = ({ panicBuf := none }, HostOutcome.panicked p)
      ∧ Host.service { panicBuf := some p } ret ev
          = ({ panicBuf := none }, HostOutcome.panicked p))
  ∧ (∀ (ret : Int) (ev : Option Nat) (p : Nat),
        (Host.check_events { panicBuf := none } ret ev).2 ≠ HostOutcome.panicked p
      ∧ (Host.service { panicBuf := none } ret ev).2 ≠ HostOutcome.panicked p)
  ∧ (∀ (ctx : CompressorCtx) (ret : Int) (ev : Option Nat), 0 ≤ ret →
        (Host.check_events ctx ret ev).1 = ctx ∧ (Host.service ctx ret ev).1 = ctx) := by
  refine ⟨fun ctx ob p => rfl, fun ret ev p h => ?_, fun ret ev p => ?_, fun ctx ret ev h => ?_⟩
  · constructor <;> simp [Host.check_events, Host.service, Host.panic_check, h]
  · refine ⟨?_, ?_⟩
    · simp only [Host.check_events, Host.panic_check]
      split
      · simp
      · split <;> simp
    · simp only [Host.service, Host.panic_check]
      split <;> simp
  · have h1 : ¬ ret < 0 := by omega
    refine ⟨?_, ?_⟩
    · simp only [Host.check_events, h1, if_false]
      split <;> rfl
    · simp [Host.service, h1]

/-- Witness for the C4 theorem at concrete inputs: a caught panic with
payload 7 is buffered and 0 returned; `check_events` and `service` on native
return -1 re-raise payload 7 and empty the buffer; with an empty buffer no
panic is raised; and a successful call (native return 5) leaves the context
untouched. -/
theorem c4_witness :
    bridgeResult { panicBuf := none } (CbOutcome.panicked 7)
        { buffer := [], length := 0, written := 0 } = ({ panicBuf := some 7 }, 0)
  ∧ Host.check_events { panicBuf := some 7 } (-1) none
      = ({ panicBuf := none }, HostOutcome.panicked 7)
  ∧ Host.service { panicBuf := some 7 } (-1) none
      = ({ panicBuf := none }, HostOutcome.panicked 7)
  ∧ (Host.check_events { panicBuf := none } (-1) none).2 ≠ HostOutcome.panicked 7
  ∧ (Host.check_events { panicBuf := none } 5 (some 2)).1 = { panicBuf := none } :=
  ⟨c4_panic_reraised_on_error_path.1 _ _ _,
   (c4_panic_reraised_on_error_path.2.1 (-1) none 7 (by decide)).1,
   (c4_panic_reraised_on_error_path.2.1 (-1) none 7 (by decide)).2,
   (c4_panic_reraised_on_error_path.2.2.1 (-1) none 7).1,
   (c4_panic_reraised_on_error_path.2.2.2 { panicBuf := none } 5 (some 2) (by decide)).1⟩

/-- A well-formed guard operation preserves the conservation invariant. -/
theorem initStep_inv {w : InitWorld} {op : InitOp}
    (hok : initOpOk w op = true) (h : InitInv w) : InitInv (initStep w op).1 := by
  obtain ⟨h1, h2⟩ := h
  cases op with
  | new initOk =>
      rcases Nat.eq_zero_or_pos w.st.refCount with hz | hp
      · cases initOk with
        | true =>
            simp [initStep, InitGuard.new, hz, InitInv]
            omega
        | false =>
            have hf : w.st.engineInit = false := by
              cases hw : w.st.engineInit
              · rfl
              · exact absurd (h2.mp hw) (by omega)
            simp [initStep, InitGuard.new, hz, InitInv, hf]
            omega
      · have hne : w.st.refCount ≠ 0 := Nat.pos_iff_ne_zero.mp hp
        have he : w.st.engineInit = true := h2.mpr hp
        simp [initStep, InitGuard.new, hne, InitInv, he]
        omega
  | clone =>
      have hl : w.live ≠ 0 := by simpa [initOpOk] using hok
      have hp : 0 < w.st.refCount := by omega
      have he : w.st.engineInit = true := h2.mpr hp
      simp [initStep, InitGuard.clone, InitInv, he]
      omega
  | drop =>
      have hl : w.live ≠ 0 := by simpa [initOpOk] using hok
      have hp : 0 < w.st.refCount := by omega
      have he : w.st.engineInit = true := h2.mpr hp
      rcases Nat.eq_zero_or_pos (w.st.refCount - 1) with hz | hpos
      · simp [initStep, InitGuard.drop, hz, InitInv]
        omega
      · have hne : w.st.refCount - 1 ≠ 0 := Nat.pos_iff_ne_zero.mp hpos
        simp [initStep, InitGuard.drop, hne, InitInv, he]
        omega

/-- Running any well-formed operation sequence preserves the invariant. -/
theorem initRun_inv :
    ∀ (ops : List InitOp) (w : InitWorld),
      initSeqOk w ops = true → InitInv w → InitInv (initRun w ops) := by
  intro ops
  induction ops with
  | nil => intro w _ h; exact h
  | cons op rest ih =>
      intro w hseq h
      have hs : initOpOk w op = true ∧ initSeqOk (initStep w op).1 rest = true := by
        simpa [initSeqOk, Bool.and_eq_true] using hseq
      exact ih _ hs.2 (initStep_inv hs.1 h)

/-- Claim C6: for any well-formed sequence of `InitGuard::new`/`clone`/`drop`
operations from process start, the global reference count equals the number
of live guards and the native subsystem is initialized exactly when that
count is positive; `new` never fails while the existing count is nonzero;
`enet_initialize` is invoked only when the pre-call count is 0, and a
successful such call leaves the count at 1 with the subsystem initialized;
`enet_deinitialize` is invoked only on the 1-to-0 transition, leaving the
subsystem deinitialized. -/
theorem c6_initguard_refcount_conserved :
    (∀ ops : List InitOp, initSeqOk initWorld0 ops = true →
        (initRun initWorld0 ops).st.refCount = (initRun initWorld0 ops).live
      ∧ ((initRun initWorld0 ops).st.engineInit = true ↔ 0 < (initRun initWorld0 ops).live))
  ∧ (∀ (s : InitState) (b : Bool), s.refCount ≠ 0 → (InitGuard.new s b).2.2 = true)
  ∧ (∀ (w : InitWorld) (op : InitOp),
        NativeCall.enet_init ∈ (initStep w op).2 → w.st.refCount = 0)
  ∧ (∀ s : InitState, s.refCount = 0 →
        (InitGuard.new s true).1.refCount = 1 ∧ (InitGuard.new s true).1.engineInit = true)
  ∧ (∀ (w : InitWorld) (op : InitOp), initOpOk w op = true → InitInv w →
        NativeCall.enet_deinit ∈ (initStep w op).2 →
        w.st.refCount = 1 ∧ (initStep w op).1.st.refCount = 0
          ∧ (initStep w op).1.st.engineInit = false) := by
  refine ⟨fun ops h => ?_, fun s b h => ?_, fun w op h => ?_, fun s h => ?_,
    fun w op hok hinv h => ?_⟩
  · have h0 : InitInv initWorld0 := by simp [InitInv, initWorld0]
    obtain ⟨h1, h2⟩ := initRun_inv ops initWorld0 h h0
    exact ⟨h1, h1 ▸ h2⟩
  · simp [InitGuard.new, h]
  · cases op with
    | new initOk =>
        by_cases hz : w.st.refCount = 0
        · exact hz
        · simp [initStep, InitGuard.new, hz] at h
    | clone => simp [initStep, InitGuard.clone] at h
    | drop =>
        exfalso
        by_cases hz : w.st.refCount - 1 = 0 <;>
          simp [initStep, InitGuard.drop, hz] at h
  · simp [InitGuard.new, h]
  · obtain ⟨h1, h2⟩ := hinv
    cases op with
    | new initOk =>
        exfalso
        by_cases hz : w.st.refCount = 0 <;> cases initOk <;>
          simp [initStep, InitGuard.new, hz] at h
    | clone => simp [initStep, InitGuard.clone] at h
    | drop =>
        have hl : w.live ≠ 0 := by simpa [initOpOk] using hok
        by_cases hz : w.st.refCount - 1 = 0
        · refine ⟨by omega, ?_, ?_⟩ <;> simp [initStep, InitGuard.drop, hz]
        · simp [initStep, InitGuard.drop, hz] at h

/-- Witness for the C6 theorem at concrete inputs: the sequence
new-clone-drop from process start (count 2, two live guards, initialized);
`new` on an existing count of 2 succeeds; a `new` that emits
`enet_initialize` starts from count 0; a successful first `new` reaches
count 1 initialized; and a `drop` of the last guard goes from count 1 to 0,
deinitialized. -/
theorem c6_witness :
    ((initRun initWorld0 [InitOp.new true, InitOp.clone, InitOp.drop]).st.refCount
        = (initRun initWorld0 [InitOp.new true, InitOp.clone, InitOp.drop]).live
      ∧ ((initRun initWorld0 [InitOp.new true, InitOp.clone, InitOp.drop]).st.engineInit = true
          ↔ 0 < (initRun initWorld0 [InitOp.new true, InitOp.clone, InitOp.drop]).live))
  ∧ (InitGuard.new { refCount := 2, engineInit := true } false).2.2 = true
  ∧ initWorld0.st.refCount = 0
  ∧ ((InitGuard.new { refCount := 0, engineInit := false } true).1.refCount = 1
      ∧ (InitGuard.new { refCount := 0, engineInit := false } true).1.engineInit = true)
  ∧ ({ st := { refCount := 1, engineInit := true }, live := 1 } : InitWorld).st.refCount = 1
      ∧ (initStep { st := { refCount := 1, engineInit := true }, live := 1 } InitOp.drop).1.st.refCount = 0
      ∧ (initStep { st := { refCount := 1, engineInit := true }, live := 1 } InitOp.drop).1.st.engineInit = false :=
  ⟨c6_initguard_refcount_conserved.1 [InitOp.new true, InitOp.clone, InitOp.drop] (by decide),
   c6_initguard_refcount_conserved.2.1 { refCount := 2, engineInit := true } false (by decide),
   c6_initguard_refcount_conserved.2.2.1 initWorld0 (InitOp.new true) (by decide),
   c6_initguard_refcount_conserved.2.2.2.1 { refCount := 0, engineInit := false } (by decide),
   c6_initguard_refcount_conserved.2.2.2.2
     { st := { refCount := 1, engineInit := true }, live := 1 } InitOp.drop
     (by decide) (by simp [InitInv]) (by decide)⟩

/-- Bit arithmetic of the `reliable` step, checked over all 4-bit flag
words: or-ing in bit 0 keeps the word below 16 and does not set bit 1. -/
theorem flagStepRel (n : Fin 16) (h : (n.val &&& 2 == 2) = false) :
    (n.val ||| 1) < 16 ∧ ((n.val ||| 1) &&& 2 == 2) = false := by
  revert h
  revert n
  decide

/-- Bit arithmetic of the `unsequenced` step: or-ing in bit 1 keeps the word
below 16 and does not set bit 0. -/
theorem flagStepUnseq (n : Fin 16) (h : (n.val &&& 1 == 1) = false) :
    (n.val ||| 2) < 16 ∧ ((n.val ||| 2) &&& 1 == 1) = false := by
  revert h
  revert n
  decide

/-- Bit arithmetic of the `unreliable_fragment` step: or-ing in bit 3 keeps
the word below 16 and changes neither bit 0 nor bit 1. -/
theorem flagStepFrag (n : Fin 16) :
    (n.val ||| 8) < 16 ∧ ((n.val ||| 8) &&& 1 == 1) = (n.val &&& 1 == 1)
      ∧ ((n.val ||| 8) &&& 2 == 2) = (n.val &&& 2 == 2) := by
  revert n
  decide

/-- The invariant every reachable `Flags` value satisfies: its word stays
within the four flag bits and the reliable and unsequenced bits are never
both set. -/
def FlagsOk (f : Flags) : Prop :=
  f.flags < 16 ∧ ((f.flags &&& 1 == 1) = false ∨ (f.flags &&& 2 == 2) = false)

theorem reachable_flagsOk {f : Flags} (h : ReachableFlags f) : FlagsOk f := by
  induction h with
  | base => exact ⟨by decide, Or.inl (by decide)⟩
  | rel hr hok ih =>
      rename_i f g
      unfold Flags.reliable at hok
      by_cases hc : f.check_flag ENET_PACKET_FLAG_UNSEQUENCED = true
      · rw [if_pos hc] at hok
        exact absurd hok (by simp)
      · rw [if_neg hc] at hok
        obtain rfl : (⟨f.flags ||| ENET_PACKET_FLAG_RELIABLE⟩ : Flags) = g :=
          by injection hok
        have hc2 : (f.flags &&& 2 == 2) = false := by
          cases hcc : f.check_flag ENET_PACKET_FLAG_UNSEQUENCED
          · exact hcc
          · exact absurd hcc hc
        obtain ⟨hb, hu⟩ := flagStepRel ⟨f.flags, ih.1⟩ hc2
        exact ⟨hb, Or.inr hu⟩
  | unseq hr hok ih =>
      rename_i f g
      unfold Flags.unsequenced at hok
      by_cases hc : f.check_flag ENET_PACKET_FLAG_RELIABLE = true
      · rw [if_pos hc] at hok
        exact absurd hok (by simp)
      · rw [if_neg hc] at hok
        obtain rfl : (⟨f.flags ||| ENET_PACKET_FLAG_UNSEQUENCED⟩ : Flags) = g :=
          by injection hok
        have hc1 : (f.flags &&& 1 == 1) = false := by
          cases hcc : f.check_flag ENET_PACKET_FLAG_RELIABLE
          · exact hcc
          · exact absurd hcc hc
        obtain ⟨hb, hu⟩ := flagStepUnseq ⟨f.flags, ih.1⟩ hc1
        exact ⟨hb, Or.inl hu⟩
  | frag hr hok ih =>
      rename_i f g
      unfold Flags.unreliable_fragment at hok
      obtain rfl : (⟨f.flags ||| ENET_PACKET_FLAG_UNRELIABLE_FRAGMENT⟩ : Flags) = g :=
        by injection hok
      obtain ⟨hb, he1, he2⟩ := flagStepFrag ⟨f.flags, ih.1⟩
      refine ⟨hb, ?_⟩
      rcases ih.2 with hi | hi
      · exact Or.inl (he1.trans hi)
      · exact Or.inr (he2.trans hi)

/-- Claim C7: no reachable `Flags` value has both the reliable and
unsequenced bits set; `reliable()` on a value with unsequenced set panics
(fails at build time), as does `unsequenced()` on a value with reliable set;
and every delivery-flag combination without the forbidden pair — the six
words 0, 1 (reliable), 2 (unsequenced), 8 (fragment), 9 (reliable+fragment),
10 (unsequenced+fragment) — is reachable by some build sequence. -/
theorem c7_reliable_unsequenced_exclusive :
    (∀ f : Flags, ReachableFlags f →
        ¬(f.is_reliable = true ∧ f.is_unsequenced = true))
  ∧ (∀ f : Flags, f.is_unsequenced = true →
        f.reliable = Except.error reliableUnsequencedMsg)
  ∧ (∀ f : Flags, f.is_reliable = true →
        f.unsequenced = Except.error reliableUnsequencedMsg)
  ∧ (∀ n : Nat, n ∈ ([0, 1, 2, 8, 9, 10] : List Nat) → ReachableFlags ⟨n⟩) := by
  refine ⟨fun f hr => ?_, fun f h => ?_, fun f h => ?_, fun n h => ?_⟩
  · rintro ⟨h1, h2⟩
    have h1r : (f.flags &&& 1 == 1) = true := h1
    have h2r : (f.flags &&& 2 == 2) = true := h2
    rcases (reachable_flagsOk hr).2 with hi | hi
    · exact Bool.false_ne_true (hi.symm.trans h1r)
    · exact Bool.false_ne_true (hi.symm.trans h2r)
  · have hc : f.check_flag ENET_PACKET_FLAG_UNSEQUENCED = true := h
    simp [Flags.reliable, hc]
  · have hc : f.check_flag ENET_PACKET_FLAG_RELIABLE = true := h
    simp [Flags.unsequenced, hc]
  · have h9 : ReachableFlags ⟨9⟩ :=
      @ReachableFlags.frag ⟨1⟩ ⟨9⟩
        (@ReachableFlags.rel ⟨0⟩ ⟨1⟩ ReachableFlags.base (by decide)) (by decide)
    have h10 : ReachableFlags ⟨10⟩ :=
      @ReachableFlags.frag ⟨2⟩ ⟨10⟩
        (@ReachableFlags.unseq ⟨0⟩ ⟨2⟩ ReachableFlags.base (by decide)) (by decide)
    simp only [List.mem_cons, List.not_mem_nil, or_false] at h
    rcases h with rfl | rfl | rfl | rfl | rfl | rfl
    · exact ReachableFlags.base
    · exact @ReachableFlags.rel ⟨0⟩ ⟨1⟩ ReachableFlags.base (by decide)
    · exact @ReachableFlags.unseq ⟨0⟩ ⟨2⟩ ReachableFlags.base (by decide)
    · exact @ReachableFlags.frag ⟨0⟩ ⟨8⟩ ReachableFlags.base (by decide)
    · exact h9
    · exact h10

/-- Witness for the C7 theorem at concrete inputs: the reachable value 9
(reliable + fragment) does not carry both exclusive bits; `reliable()` on
the word 2 (unsequenced) and `unsequenced()` on the word 1 (reliable) both
panic; and the word 9 is reachable. -/
theorem c7_witness :
    ¬((⟨9⟩ : Flags).is_reliable = true ∧ (⟨9⟩ : Flags).is_unsequenced = true)
  ∧ (⟨2⟩ : Flags).reliable = Except.error reliableUnsequencedMsg
  ∧ (⟨1⟩ : Flags).unsequenced = Except.error reliableUnsequencedMsg
  ∧ ReachableFlags ⟨9⟩ :=
  ⟨c7_reliable_unsequenced_exclusive.1 ⟨9⟩
      (@ReachableFlags.frag ⟨1⟩ ⟨9⟩
        (@ReachableFlags.rel ⟨0⟩ ⟨1⟩ ReachableFlags.base (by decide)) (by decide)),
   c7_reliable_unsequenced_exclusive.2.1 ⟨2⟩ (by decide),
   c7_reliable_unsequenced_exclusive.2.2.1 ⟨1⟩ (by decide),
   c7_reliable_unsequenced_exclusive.2.2.2 9 (by decide)⟩

/-- A validation parameter that is not explicitly zero passes through (with
the source's default of 1 when unset). -/
theorem checkedParam_ok (p : Option Nat) (h : p ≠ some 0) :
    checkedParam p = Except.ok (p.getD 1) := by
  cases p with
  | none => rfl
  | some n =>
      cases n with
      | zero => exact absurd rfl h
      | succ m => rfl

/-- The parameter of `checkedParam` explicitly set to zero fails the
validation. -/
theorem checkedParam_zero : checkedParam (some 0) = Except.error Error.invalidArgument := rfl

/-- Any explicit zero among the four counts makes the post-address part of
the build fail with `InvalidArgument` before any native call. -/
theorem buildWithAddr_invalid (addr : Option (Nat × Nat))
    (a0 : Option (Except Unit (Nat × Nat))) (pc cl ib og : Option Nat)
    (ck : Option CompressorKind) (s : InitState) (i c r : Bool)
    (hzero : pc = some 0 ∨ cl = some 0 ∨ ib = some 0 ∨ og = some 0) :
    buildWithAddr addr ⟨a0, pc, cl, ib, og, ck⟩ s i c r
      = (Except.error Error.invalidArgument, []) := by
  by_cases hp : pc = some 0
  · subst hp
    simp [buildWithAddr, checkedParam_zero]
  · have e1 := checkedParam_ok pc hp
    by_cases hc : cl = some 0
    · subst hc
      simp [buildWithAddr, e1, checkedParam_zero]
    · have e2 := checkedParam_ok cl hc
      by_cases hi : ib = some 0
      · subst hi
        simp [buildWithAddr, e1, e2, checkedParam_zero]
      · have e3 := checkedParam_ok ib hi
        by_cases ho : og = some 0
        · subst ho
          simp [buildWithAddr, e1, e2, e3, checkedParam_zero]
        · exfalso
          rcases hzero with h | h | h | h
          exacts [hp h, hc h, hi h, ho h]

/-- Claim C8: whenever `peer_count`, `channel_limit`, or a bandwidth limit is
explicitly set to zero (and address resolution did not itself fail),
`HostBuilder::build` returns `Error::InvalidArgument` having performed no
native call at all — in particular neither `InitGuard` acquisition nor
`enet_host_create`; and a builder with no address set (and no explicit
zeros) builds successfully, passing a null (`none`) address to
`enet_host_create`, i.e. a client-only host rather than an error. -/
theorem c8_builder_validates_before_allocation :
    (∀ (b : HostBuilder) (s : InitState) (i c r : Bool),
        (b.addr = none ∨ ∃ a, b.addr = some (Except.ok a)) →
        (b.peer_count = some 0 ∨ b.channel_limit = some 0 ∨
          b.incoming_bandwidth = some 0 ∨ b.outgoing_bandwidth = some 0) →
        b.build s i c r = (Except.error Error.invalidArgument, []))
  ∧ (∀ (b : HostBuilder) (s : InitState),
        b.addr = none →
        b.peer_count ≠ some 0 → b.channel_limit ≠ some 0 →
        b.incoming_bandwidth ≠ some 0 → b.outgoing_bandwidth ≠ some 0 →
        ∃ t : List NativeCall,
          b.build s true true true = (Except.ok (), t)
          ∧ NativeCall.enet_host_create none (b.peer_count.getD 1) (b.channel_limit.getD 1)
              (b.incoming_bandwidth.getD 1) (b.outgoing_bandwidth.getD 1) ∈ t) := by
  constructor
  · intro b s i c r haddr hzero
    obtain ⟨a0, pc, cl, ib, og, ck⟩ := b
    rcases haddr with h | ⟨a, h⟩
    · have h0 : a0 = none := h
      subst h0
      exact buildWithAddr_invalid none none pc cl ib og ck s i c r hzero
    · have h0 : a0 = some (Except.ok a) := h
      subst h0
      exact buildWithAddr_invalid (some a) (some (Except.ok a)) pc cl ib og ck s i c r hzero
  · intro b s haddr h1 h2 h3 h4
    obtain ⟨a0, pc, cl, ib, og, ck⟩ := b
    have h0 : a0 = none := haddr
    subst h0
    have e1 := checkedParam_ok pc h1
    have e2 := checkedParam_ok cl h2
    have e3 := checkedParam_ok ib h3
    have e4 := checkedParam_ok og h4
    show ∃ t, buildWithAddr none ⟨none, pc, cl, ib, og, ck⟩ s true true true
        = (Except.ok (), t) ∧ _ ∈ t
    by_cases hs : s.refCount = 0
    · cases ck with
      | none =>
          refine ⟨[NativeCall.enet_init,
            NativeCall.enet_host_create none (pc.getD 1) (cl.getD 1) (ib.getD 1) (og.getD 1),
            NativeCall.enet_host_compress false], ?_, by simp⟩
          simp [buildWithAddr, e1, e2, e3, e4, InitGuard.new, hs, Host.set_compressor]
      | some k =>
          cases k with
          | custom =>
              refine ⟨[NativeCall.enet_init,
                NativeCall.enet_host_create none (pc.getD 1) (cl.getD 1) (ib.getD 1) (og.getD 1),
                NativeCall.enet_host_compress true], ?_, by simp⟩
              simp [buildWithAddr, e1, e2, e3, e4, InitGuard.new, hs, Host.set_compressor]
          | rangeCoder =>
              refine ⟨[NativeCall.enet_init,
                NativeCall.enet_host_create none (pc.getD 1) (cl.getD 1) (ib.getD 1) (og.getD 1),
                NativeCall.enet_host_compress_with_range_coder], ?_, by simp⟩
              simp [buildWithAddr, e1, e2, e3, e4, InitGuard.new, hs, Host.set_compressor]
    · cases ck with
      | none =>
          refine ⟨[NativeCall.enet_host_create none (pc.getD 1) (cl.getD 1) (ib.getD 1) (og.getD 1),
            NativeCall.enet_host_compress false], ?_, by simp⟩
          simp [buildWithAddr, e1, e2, e3, e4, InitGuard.new, hs, Host.set_compressor]
      | some k =>
          cases k with
          | custom =>
              refine ⟨[NativeCall.enet_host_create none (pc.getD 1) (cl.getD 1) (ib.getD 1) (og.getD 1),
                NativeCall.enet_host_compress true], ?_, by simp⟩
              simp [buildWithAddr, e1, e2, e3, e4, InitGuard.new, hs, Host.set_compressor]
          | rangeCoder =>
              refine ⟨[NativeCall.enet_host_create none (pc.getD 1) (cl.getD 1) (ib.getD 1) (og.getD 1),
                NativeCall.enet_host_compress_with_range_coder], ?_, by simp⟩
              simp [buildWithAddr, e1, e2, e3, e4, InitGuard.new, hs, Host.set_compressor]

/-- Witness for the C8 theorem at concrete inputs: a builder with
`peer_count(0)` fails with `InvalidArgument` and an empty native-call trace,
and an all-default builder (no address) builds a client-only host, calling
`enet_host_create` with a null address. -/
theorem c8_witness :
    HostBuilder.build
        { addr := none, peer_count := some 0, channel_limit := none,
          incoming_bandwidth := none, outgoing_bandwidth := none, compressor_kind := none }
        { refCount := 0, engineInit := false } true true true
      = (Except.error Error.invalidArgument, [])
  ∧ ∃ t : List NativeCall,
      HostBuilder.build
          { addr := none, peer_count := none, channel_limit := none,
            incoming_bandwidth := none, outgoing_bandwidth := none, compressor_kind := none }
          { refCount := 0, engineInit := false } true true true
        = (Except.ok (), t)
      ∧ NativeCall.enet_host_create none 1 1 1 1 ∈ t :=
  ⟨c8_builder_validates_before_allocation.1 _ _ _ _ _ (Or.inl rfl) (Or.inl rfl),
   c8_builder_validates_before_allocation.2 _ _ rfl
     (by decide) (by decide) (by decide) (by decide)⟩

end Benet
